import Mathlib

/-!
Shallow embedding of `src/llvm_temporary/src/llvm_temporary/llvm_codegen.rs`
(Loop-Studios/Wave-Test): the function-level LLVM lowering driver of the Wave
compiler.  Rust panics are modelled as `Except.error` with a `Fault`
constructor named after the panic site; LLVM/inkwell values are modelled by
first-order Lean data (`LLVMType`, `IRValue`, `Instr`, `GlobalConst`); the
Rust `HashMap` is modelled as an association list with insert-overwrite
semantics (one entry per key).  The external statement emitter
(`generate_statement_ir`, outside this core per the spec) is modelled as an
opaque appended instruction marker.
-/

/-- Surface types of the Wave language (`parser::ast::WaveType`), as consumed
by `wave_type_to_llvm_type`. -/
inductive WaveType where
  | int (bits : Nat)
  | uint (bits : Nat)
  | float (bits : Nat)
  | bool
  | char
  | byte
  | string
  | pointer (inner : WaveType)
  | array (inner : WaveType) (size : Nat)
deriving DecidableEq, Repr

/-- Model of inkwell `BasicTypeEnum` as produced by this file's code paths:
integer types of a given bit width (`custom_width_int_type`), the two float
types (`f32_type` / `f64_type`, recorded by width), pointer types and
fixed-length array types.  Struct and vector types are never produced by the
lowering core and are omitted. -/
inductive LLVMType where
  | int (width : Nat)
  | float (width : Nat)
  | pointer (inner : LLVMType)
  | array (inner : LLVMType) (size : Nat)
deriving DecidableEq, Repr

/-- Fault kinds of the lowering core.  Each constructor corresponds to one
Rust `panic!` site in `llvm_codegen.rs`; the spec's fault names map onto them
as follows: `UnsupportedWidth` ≙ `unsupportedFloatWidth` (panic "Unsupported
float bit width"), `UnsupportedReturnType` ≙ `unsupportedReturnType` (panic
"Unsupported return type"), `UnsupportedTopLevelNode` ≙ `unsupportedBodyNode`
(panic "Unsupported ASTNode in function body"), `UndefinedVariable` ≙
`variableNotFound` (panic "Variable {} not found"), `UnsupportedNestedDeref` ≙
`nestedDerefNotSupported` (panic "Nested deref not supported"),
`NotAnAddressableExpression` ≙ `cannotTakeAddress` (panic "Cannot take
address of this expression").  `unsupportedFloatSize` and
`unsupportedTokenType` are the panics of `get_llvm_type`; `unwrapFailed`
models `Option::unwrap` on a missing signature-table entry.  The source has
no panic for duplicate function names and none for default-value/type
mismatches. -/
inductive Fault where
  | unsupportedReturnType
  | unsupportedFloatWidth (bits : Nat)
  | unsupportedBodyNode
  | variableNotFound (name : String)
  | nestedDerefNotSupported
  | cannotTakeAddress
  | unsupportedFloatSize (bits : Nat)
  | unsupportedTokenType
  | unwrapFailed
deriving DecidableEq, Repr

deriving instance DecidableEq for Except

/-- Embedding of `wave_type_to_llvm_type` (llvm_codegen.rs lines 169-188).
The Rust function panics on a float width other than 32 or 64; the panic is
modelled as `Except.error`. -/
def wave_type_to_llvm_type : WaveType → Except Fault LLVMType
  | .int bits => .ok (.int bits)
  | .uint bits => .ok (.int bits)
  | .float bits =>
    match bits with
    | 32 => .ok (.float 32)
    | 64 => .ok (.float 64)
    | b => .error (.unsupportedFloatWidth b)
  | .bool => .ok (.int 1)
  | .char => .ok (.int 8)
  | .byte => .ok (.int 8)
  | .string => .ok (.pointer (.int 8))
  | .pointer inner => do
    let t ← wave_type_to_llvm_type inner
    pure (.pointer t)
  | .array inner size => do
    let t ← wave_type_to_llvm_type inner
    pure (.array t size)

/-- Lexer token types consumed by `get_llvm_type` (`lexer::token::TokenType`);
only the type-describing variants matched in llvm_codegen.rs lines 229-253
are modelled, with `other` standing for every remaining token variant (the
`_ => panic!("Unsupported type")` arm). -/
inductive TokenType where
  | typeInt (bits : Nat)
  | typeUint (bits : Nat)
  | typeFloat (bits : Nat)
  | typeBool
  | typeChar
  | typeByte
  | typePointer (inner : TokenType)
  | typeArray (inner : TokenType) (size : Nat)
  | typeString
  | other
deriving DecidableEq, Repr

/-- Embedding of `get_llvm_type` (llvm_codegen.rs lines 229-253).  Unlike
`wave_type_to_llvm_type` it also accepts float width 128 (`f128_type`),
recorded as `LLVMType.float 128`. -/
def get_llvm_type : TokenType → Except Fault LLVMType
  | .typeInt bits => .ok (.int bits)
  | .typeUint bits => .ok (.int bits)
  | .typeFloat bits =>
    match bits with
    | 32 => .ok (.float 32)
    | 64 => .ok (.float 64)
    | 128 => .ok (.float 128)
    | b => .error (.unsupportedFloatSize b)
  | .typeBool => .ok (.int 1)
  | .typeChar => .ok (.int 8)
  | .typeByte => .ok (.int 8)
  | .typePointer inner => do
    let t ← get_llvm_type inner
    pure (.pointer t)
  | .typeArray inner size => do
    let t ← get_llvm_type inner
    pure (.array t size)
  | .typeString => .ok (.pointer (.int 8))
  | .other => .error .unsupportedTokenType

/-- Conversion specifier chosen per placeholder in `wave_format_to_c`
(llvm_codegen.rs lines 145-156): floats map to "%f", integers to "%d",
pointer-to-i8 to "%s", any other pointer to "%ld", anything else to the
"%d" fallback. -/
def specifierFor : LLVMType → String
  | .float _ => "%f"
  | .int _ => "%d"
  | .pointer (.int 8) => "%s"
  | .pointer _ => "%ld"
  | _ => "%d"

/-- Loop of `wave_format_to_c` (llvm_codegen.rs lines 139-164) over the
remaining characters, carrying `arg_index` and the accumulated output.  A
`{` immediately followed by `}` consumes the `}`; if `arg_types` still has
an entry at `arg_index` the specifier is appended and the index advances,
otherwise control falls through to `result.push(c)` and only the `{` is
appended (the consumed `}` is dropped).  The Rust `String` accumulator is
modelled by its character list. -/
def waveFormatToCLoop : List Char → List LLVMType → Nat → List Char → List Char
  | [], _, _, acc => acc
  | [c], _, _, acc => acc ++ [c]
  | c :: c2 :: rest, argTypes, argIndex, acc =>
    if c = '{' ∧ c2 = '}' then
      match argTypes[argIndex]? with
      | some argType =>
        waveFormatToCLoop rest argTypes (argIndex + 1) (acc ++ (specifierFor argType).data)
      | none => waveFormatToCLoop rest argTypes argIndex (acc ++ [c])
    else
      waveFormatToCLoop (c2 :: rest) argTypes argIndex (acc ++ [c])

/-- Embedding of `wave_format_to_c` (llvm_codegen.rs lines 134-167). -/
def wave_format_to_c (format : String) (arg_types : List LLVMType) : String :=
  String.mk (waveFormatToCLoop format.data arg_types 0 [])

/-- Mutability of a binding (`parser::ast::Mutability`). -/
inductive Mutability where
  | Let
  | Var
deriving DecidableEq, Repr

/-- Environment entry (`VariableInfo`, llvm_codegen.rs lines 223-227): the
stack slot's pointer value (modelled as the slot id handed out by the
alloca counter) and the binding's mutability. -/
structure VariableInfo where
  ptr : Nat
  mutability : Mutability
deriving DecidableEq, Repr

/-- Default literal values (`parser::ast::Value`): an `i64` integer, an `f64`
float, or a text string.  The `f64` payload is modelled as its raw bit
pattern (a `Nat`), carried opaquely — the lowering core never computes with
it, it only wraps it in a typed constant. -/
inductive Value where
  | Int (v : Int)
  | Float (raw : Nat)
  | Text (s : String)
deriving DecidableEq, Repr

/-- Function parameter (`parser::ast::ParameterNode`): name, declared surface
type, optional default literal. -/
structure ParameterNode where
  name : String
  param_type : WaveType
  initial_value : Option Value
deriving DecidableEq, Repr

/-- AST nodes (`parser::ast::ASTNode`).  `Function` carries the fields of
`FunctionNode` inline; `Variable` and `Statement` are the body-statement
node kinds dispatched to the external statement emitter (their payloads are
opaque to this core and modelled by an id); `Other` stands for every
remaining node kind, matched only by the source's catch-all
`_ => panic!("Unsupported ASTNode in function body")` arm. -/
inductive ASTNode where
  | Function (name : String) (parameters : List ParameterNode)
      (return_type : Option WaveType) (body : List ASTNode)
  | Variable (id : Nat)
  | Statement (id : Nat)
  | Other (id : Nat)

/-- Typed IR values that the driver stores into parameter slots:
`const_int(v as u64, false)` on an integer type of the given width,
`const_float` on a float type, the address of element 0 of a named global
(the `build_gep [0, 0]` result — a constant expression), or the function's
positional argument `get_nth_param(i)`. -/
inductive IRValue where
  | constInt (width : Nat) (value : Nat)
  | constFloat (width : Nat) (raw : Nat)
  | globalElemAddr (globalName : String)
  | funcArg (index : Nat)
deriving DecidableEq, Repr

/-- Instructions appended to the function's entry block by the driver:
`build_alloca`, `build_store`, the opaque effect of one
`generate_statement_ir` call (the external statement emitter, out of this
core's scope), and `build_return(None)`. -/
inductive Instr where
  | alloca (slot : Nat) (ty : LLVMType) (name : String)
  | store (slot : Nat) (value : IRValue)
  | emitStmt (node : ASTNode)
  | retVoid

/-- Module-level global constant emitted for a text default value
(`module.add_global` + `set_initializer` + `set_constant(true)`):
an i8 array of length `arrayLen` whose initializer is `bytes`. -/
structure GlobalConst where
  name : String
  arrayLen : Nat
  bytes : List Nat
  isConstant : Bool
deriving DecidableEq, Repr

/-- Rust `HashMap::insert` on an association list: one entry per key — an
existing entry for the key is overwritten in place, otherwise the pair is
appended. -/
def insertOverwrite {A : Type} : List (String × A) → String → A → List (String × A)
  | [], k, v => [(k, v)]
  | (k0, v0) :: rest, k, v =>
    if k0 = k then (k, v) :: rest else (k0, v0) :: insertOverwrite rest k v

/-- Rust `HashMap::get` on the association-list model. -/
def lookupEnv {A : Type} : List (String × A) → String → Option A
  | [], _ => none
  | (k0, v0) :: rest, k => if k0 = k then some v0 else lookupEnv rest k

/-- Rust `v as u64` on an `i64`: the two's-complement reinterpretation,
i.e. the residue of `v` modulo 2^64. -/
def intAsU64 (v : Int) : Nat := (v % (2 ^ 64 : Int)).toNat

/-- UTF-8 encoding of one character, as `str::as_bytes` produces it. -/
def utf8EncodeCharBytes (c : Char) : List Nat :=
  let n := c.toNat
  if n < 0x80 then [n]
  else if n < 0x800 then
    [0xC0 + n / 64, 0x80 + n % 64]
  else if n < 0x10000 then
    [0xE0 + n / 4096, 0x80 + n / 64 % 64, 0x80 + n % 64]
  else
    [0xF0 + n / 262144, 0x80 + n / 4096 % 64, 0x80 + n / 64 % 64, 0x80 + n % 64]

/-- Byte content of a Rust string (`s.as_bytes()`): UTF-8 bytes of its
characters. -/
def strBytes (s : String) : List Nat :=
  (s.data.map utf8EncodeCharBytes).flatten

/-- State of one function's lowering: the entry block's instruction list,
the module's accumulated global constants, the variable environment, and
the next fresh stack-slot id. -/
structure LowerState where
  instrs : List Instr
  globals : List GlobalConst
  vars : List (String × VariableInfo)
  nextSlot : Nat

/-- Per-parameter step of `generate_ir` (llvm_codegen.rs lines 55-99):
allocate one slot for the parameter's mapped IR type; compute the initial
value — with a default literal present, an integer literal on an integer
slot becomes `const_int(v as u64)`, a float literal on a float slot becomes
`const_float`, a text literal on a pointer slot emits a null-terminated
constant global named `param_str_{name}` and takes its element-0 address,
and any other literal/type combination yields `None`; with no default, the
caller's positional argument `i` is used.  Store the value if one was
produced (no store otherwise), then bind the name with mutability `Let`. -/
def lowerParam (i : Nat) (param : ParameterNode) (st : LowerState) :
    Except Fault LowerState := do
  let llvm_type ← wave_type_to_llvm_type param.param_type
  let alloca := st.nextSlot
  let st1 : LowerState :=
    { st with nextSlot := alloca + 1,
              instrs := st.instrs ++ [.alloca alloca llvm_type param.name] }
  let step : Option IRValue × LowerState :=
    match param.initial_value with
    | some initial =>
      match initial, llvm_type with
      | .Int v, .int w => (some (.constInt w (intAsU64 v)), st1)
      | .Float f, .float w => (some (.constFloat w f), st1)
      | .Text s, .pointer _ =>
        let bytes := strBytes s ++ [0]
        let gname := "param_str_" ++ param.name
        (some (.globalElemAddr gname),
          { st1 with globals := st1.globals ++ [⟨gname, bytes.length, bytes, true⟩] })
      | _, _ => (none, st1)
    | none => (some (.funcArg i), st1)
  let st2 := step.2
  let st3 : LowerState :=
    match step.1 with
    | some init_val => { st2 with instrs := st2.instrs ++ [.store alloca init_val] }
    | none => st2
  pure { st3 with vars := insertOverwrite st3.vars param.name ⟨alloca, .Let⟩ }

/-- The driver's parameter loop (`for (i, param) in parameters.iter().enumerate()`). -/
def lowerParams : Nat → List ParameterNode → LowerState → Except Fault LowerState
  | _, [], st => .ok st
  | i, p :: rest, st => do
    let st1 ← lowerParam i p st
    lowerParams (i + 1) rest st1

/-- The driver's body-statement loop (llvm_codegen.rs lines 104-121):
`Variable` and `Statement` nodes are dispatched to the external statement
emitter (modelled as an opaque appended `emitStmt` effect); any other node
kind panics. -/
def lowerBody : List ASTNode → LowerState → Except Fault LowerState
  | [], st => .ok st
  | stmt :: rest, st =>
    match stmt with
    | .Variable id =>
      lowerBody rest { st with instrs := st.instrs ++ [.emitStmt (.Variable id)] }
    | .Statement id =>
      lowerBody rest { st with instrs := st.instrs ++ [.emitStmt (.Statement id)] }
    | _ => .error .unsupportedBodyNode

/-- Lowering of one function body (llvm_codegen.rs lines 47-125): fresh
environment and slot counter, parameters in order, then body statements,
then — with `did_return` the constant `false` of line 102 — an implicit
`ret void` appended whenever the declared return type is absent.  Returns
the entry block's instructions, the final environment, and the module's
globals. -/
def lowerFunction (parameters : List ParameterNode) (return_type : Option WaveType)
    (body : List ASTNode) (globals0 : List GlobalConst) :
    Except Fault (List Instr × List (String × VariableInfo) × List GlobalConst) := do
  let st0 : LowerState := ⟨[], globals0, [], 0⟩
  let st1 ← lowerParams 0 parameters st0
  let st2 ← lowerBody body st1
  let is_void_fn := return_type.isNone
  let did_return := false
  let instrs := if !did_return && is_void_fn then st2.instrs ++ [.retVoid] else st2.instrs
  pure (instrs, st2.vars, st2.globals)

/-- An IR function signature: parameter types and return type
(`none` = void). -/
structure FnType where
  paramTypes : List LLVMType
  retType : Option LLVMType
deriving DecidableEq, Repr

/-- Signature construction for one declaration (llvm_codegen.rs lines
21-36): map every parameter type, then the return type; an integer, float
or pointer return kind is accepted, any other basic kind panics
"Unsupported return type"; an absent return type is void. -/
def fnTypeOfDecl (parameters : List ParameterNode) (return_type : Option WaveType) :
    Except Fault FnType := do
  let param_types ← parameters.mapM (fun p => wave_type_to_llvm_type p.param_type)
  match return_type with
  | some wave_ret_ty =>
    let llvm_ret_type ← wave_type_to_llvm_type wave_ret_ty
    match llvm_ret_type with
    | .int w => pure ⟨param_types, some (.int w)⟩
    | .float w => pure ⟨param_types, some (.float w)⟩
    | .pointer t => pure ⟨param_types, some (.pointer t)⟩
    | .array _ _ => .error .unsupportedReturnType
  | none => pure ⟨param_types, none⟩

/-- First pass of `generate_ir` (llvm_codegen.rs lines 19-41): for each
function declaration in order, build its signature, `add_function` it to
the module (first accumulator, append-only) and `insert` it into the
`functions` table (second accumulator, HashMap semantics: a duplicate name
overwrites the earlier entry without any fault). -/
def signaturePassAux : List ASTNode → List (String × FnType) → List (String × FnType) →
    Except Fault (List (String × FnType) × List (String × FnType))
  | [], moduleFns, functions => .ok (moduleFns, functions)
  | .Function name parameters return_type _body :: rest, moduleFns, functions => do
    let fn_type ← fnTypeOfDecl parameters return_type
    signaturePassAux rest (moduleFns ++ [(name, fn_type)])
      (insertOverwrite functions name fn_type)
  | _ :: rest, moduleFns, functions => signaturePassAux rest moduleFns functions

/-- First pass of `generate_ir` started on empty accumulators. -/
def signaturePass (ast_nodes : List ASTNode) :
    Except Fault (List (String × FnType) × List (String × FnType)) :=
  signaturePassAux ast_nodes [] []

/-- One lowered function of the output module. -/
structure LoweredFunction where
  name : String
  fnType : FnType
  instrs : List Instr

/-- Second pass of `generate_ir` (llvm_codegen.rs lines 43-127): for each
function declaration, look its value up in the `functions` table
(`unwrap`), lower its body, and thread the module's globals through. -/
def bodyPassAux : List ASTNode → List (String × FnType) → List LoweredFunction →
    List GlobalConst → Except Fault (List LoweredFunction × List GlobalConst)
  | [], _, fns, globals => .ok (fns, globals)
  | .Function name parameters return_type body :: rest, functions, fns, globals =>
    match lookupEnv functions name with
    | none => .error .unwrapFailed
    | some fn_type => do
      let r ← lowerFunction parameters return_type body globals
      bodyPassAux rest functions (fns ++ [⟨name, fn_type, r.1⟩]) r.2.2
  | _ :: rest, functions, fns, globals => bodyPassAux rest functions fns globals

/-- Embedding of `generate_ir` (llvm_codegen.rs lines 11-132): signature
pass, then body pass; the result is the declared-signature list, the
lowered functions, and the module's global constants. -/
def generate_ir (ast_nodes : List ASTNode) :
    Except Fault (List (String × FnType) × List LoweredFunction × List GlobalConst) := do
  let sigs ← signaturePass ast_nodes
  let bodies ← bodyPassAux ast_nodes sigs.2 [] []
  pure (sigs.1, bodies.1, bodies.2)

/-- Expressions (`parser::ast::Expression`) as far as the address resolver
observes them: variable references, dereferences, and the AST's remaining
value-expression forms — represented by `Literal` and `BinaryOp` — which the
source matches only through its catch-all `_` arms. -/
inductive Expression where
  | Variable (name : String)
  | Deref (inner : Expression)
  | Literal (value : Value)
  | BinaryOp (lhs rhs : Expression)
deriving DecidableEq, Repr

/-- Result of the address resolver: either the slot's own address
(`var_info.ptr`, for a bare variable) or the pointer value loaded from the
slot (`build_load`, for a single dereference). -/
inductive Address where
  | slotAddr (slot : Nat)
  | loadedFrom (slot : Nat)
deriving DecidableEq, Repr

/-- Embedding of `generate_address_ir` (llvm_codegen.rs lines 190-221).
A bare bound variable resolves to its slot address; `Deref` of a bound
variable loads the pointer value from that slot; an unbound variable (bare
or under `Deref`) panics "Variable {} not found"; `Deref` of anything that
is not a bare variable panics "Nested deref not supported"; every other
expression shape panics "Cannot take address of this expression". -/
def generate_address_ir (expr : Expression) (vars : List (String × VariableInfo)) :
    Except Fault Address :=
  match expr with
  | .Variable name =>
    match lookupEnv vars name with
    | some var_info => .ok (.slotAddr var_info.ptr)
    | none => .error (.variableNotFound name)
  | .Deref inner_expr =>
    match inner_expr with
    | .Variable var_name =>
      match lookupEnv vars var_name with
      | some var_info => .ok (.loadedFrom var_info.ptr)
      | none => .error (.variableNotFound var_name)
    | _ => .error .nestedDerefNotSupported
  | _ => .error .cannotTakeAddress

/-- The literal/slot-type combinations for which the source's default-value
match (llvm_codegen.rs lines 60-83) produces an initial value: an integer
literal on an integer slot, a float literal on a float slot, a text literal
on a pointer slot.  Every other combination falls into the `_ => None`
arm. -/
def literalCompatible : Value → LLVMType → Bool
  | .Int _, .int _ => true
  | .Float _, .float _ => true
  | .Text _, .pointer _ => true
  | _, _ => false

/-- Conversion specifier table as the spec's words state it (for comparison
with `specifierFor`): a float type maps to "%f", an integer type to "%d",
pointer-to-8-bit-integer to "%s", any other pointer type to "%ld", and any
other type falls back to "%d". -/
def specifierSpec (t : LLVMType) : String :=
  match t with
  | .float _ => "%f"
  | .int _ => "%d"
  | .pointer inner => if inner = .int 8 then "%s" else "%ld"
  | .array _ _ => "%d"

/-- Reference translation written from the amended description of the format
translator: scan left to right; a `{}` pair with an argument type remaining
is replaced by that type's specifier and consumes the type; a `{}` pair with
the argument types exhausted is emitted as the single character `{` (its `}`
is dropped); every other character, including a lone `{` not followed by
`}`, is copied through unchanged. -/
def translateSpecChars : List Char → List LLVMType → List Char
  | [], _ => []
  | [c], _ => [c]
  | c :: c2 :: rest, argTypes =>
    if c = '{' ∧ c2 = '}' then
      match argTypes with
      | t :: ts => (specifierSpec t).data ++ translateSpecChars rest ts
      | [] => '{' :: translateSpecChars rest []
    else
      c :: translateSpecChars (c2 :: rest) argTypes

/-- Rendering of the remaining format characters once the argument types are
exhausted, written from the amended claim: each `{}` placeholder is emitted
as the single character `{` (its `}` is consumed and dropped), and every
other character is copied through unchanged. -/
def droppedBraceRender : List Char → List Char
  | [] => []
  | [c] => [c]
  | c :: c2 :: rest =>
    if c = '{' ∧ c2 = '}' then '{' :: droppedBraceRender rest
    else c :: droppedBraceRender (c2 :: rest)

example : wave_format_to_c "value: {}" [.float 32] = "value: %f" := by decide
example : wave_format_to_c "{} and {}" [.int 32, .pointer (.int 8)] = "%d and %s" := by decide
example : wave_format_to_c "no placeholder" [] = "no placeholder" := by decide
example : wave_format_to_c "a \x7b b" [] = "a \x7b b" := by decide
example : wave_format_to_c "a{}b" [] = "a\x7bb" := by decide


theorem specifierFor_eq_spec (t : LLVMType) : specifierFor t = specifierSpec t := by
  cases t with
  | int w => rfl
  | float w => rfl
  | array inner n => rfl
  | pointer inner =>
    cases inner with
    | float w => rfl
    | pointer i2 => rfl
    | array i2 n => rfl
    | int w =>
      by_cases h : w = 8
      · subst h; rfl
      · simp [specifierFor, specifierSpec, h]

theorem waveFormatToCLoop_translate :
    ∀ (n : Nat) (cs : List Char), cs.length ≤ n →
    ∀ (ts : List LLVMType) (i : Nat) (acc : List Char),
      waveFormatToCLoop cs ts i acc = acc ++ translateSpecChars cs (ts.drop i) := by
  intro n
  induction n with
  | zero =>
    intro cs hlen ts i acc
    have hnil : cs = [] := List.length_eq_zero.mp (Nat.le_zero.mp hlen)
    subst hnil
    simp [waveFormatToCLoop, translateSpecChars]
  | succ n ih =>
    intro cs hlen ts i acc
    match cs with
    | [] => simp [waveFormatToCLoop, translateSpecChars]
    | [c] => simp [waveFormatToCLoop, translateSpecChars]
    | c :: c2 :: rest =>
      have hrest : rest.length ≤ n := by
        simp only [List.length_cons] at hlen
        omega
      by_cases h : c = '{' ∧ c2 = '}'
      · obtain ⟨hc, hc2⟩ := h
        subst hc; subst hc2
        cases hdrop : ts.drop i with
        | nil =>
          have hget : ts[i]? = none :=
            List.getElem?_eq_none (List.drop_eq_nil_iff.mp hdrop)
          simp only [waveFormatToCLoop, translateSpecChars, hget, hdrop]
          rw [ih rest hrest ts i (acc ++ ['{'])]
          rw [hdrop]
          simp
        | cons t ts2 =>
          have hget : ts[i]? = some t := by
            have hgd := List.getElem?_drop ts i 0
            rw [hdrop] at hgd
            simpa using hgd.symm
          have hdrop2 : ts.drop (i + 1) = ts2 := by
            have htd := List.tail_drop ts i
            rw [hdrop] at htd
            simpa using htd.symm
          simp only [waveFormatToCLoop, translateSpecChars, hget, hdrop]
          rw [ih rest hrest ts (i + 1) (acc ++ (specifierFor t).data)]
          rw [hdrop2, specifierFor_eq_spec]
          simp
      · simp only [waveFormatToCLoop, translateSpecChars, if_neg h]
        have hrest2 : (c2 :: rest).length ≤ n := by
          simp only [List.length_cons] at hlen ⊢
          omega
        rw [ih (c2 :: rest) hrest2 ts i (acc ++ [c])]
        simp

theorem translateSpecChars_nil :
    ∀ (n : Nat) (cs : List Char), cs.length ≤ n →
      translateSpecChars cs [] = droppedBraceRender cs := by
  intro n
  induction n with
  | zero =>
    intro cs hlen
    have hnil : cs = [] := List.length_eq_zero.mp (Nat.le_zero.mp hlen)
    subst hnil
    rfl
  | succ n ih =>
    intro cs hlen
    match cs with
    | [] => rfl
    | [c] => rfl
    | c :: c2 :: rest =>
      have hrest : rest.length ≤ n := by
        simp only [List.length_cons] at hlen
        omega
      have hrest2 : (c2 :: rest).length ≤ n := by
        simp only [List.length_cons] at hlen ⊢
        omega
      by_cases h : c = '{' ∧ c2 = '}'
      · obtain ⟨hc, hc2⟩ := h
        subst hc; subst hc2
        simp only [translateSpecChars, droppedBraceRender]
        rw [ih rest hrest]
        simp
      · simp only [translateSpecChars, droppedBraceRender, if_neg h]
        rw [ih (c2 :: rest) hrest2]

theorem lookupEnv_insertOverwrite {A : Type} (env : List (String × A)) (k : String) (v : A) :
    lookupEnv (insertOverwrite env k v) k = some v := by
  induction env with
  | nil => simp [insertOverwrite, lookupEnv]
  | cons hd tl ih =>
    obtain ⟨k0, v0⟩ := hd
    by_cases h : k0 = k
    · simp [insertOverwrite, lookupEnv, h]
    · simp [insertOverwrite, lookupEnv, h, ih]

theorem string_append_right_inj (p : String) {a b : String} (h : p ++ a = p ++ b) :
    a = b := by
  obtain ⟨da⟩ := a
  obtain ⟨db⟩ := b
  obtain ⟨dp⟩ := p
  have hdata : dp ++ da = dp ++ db := congrArg String.data h
  exact congrArg String.mk (List.append_cancel_left hdata)

theorem exceptOkBind {E A B : Type} (a : A) (f : A → Except E B) :
    (Except.ok a : Except E A) >>= f = f a := rfl

theorem exceptErrorBind {E A B : Type} (e : E) (f : A → Except E B) :
    (Except.error e : Except E A) >>= f = Except.error e := rfl

theorem lowerParam_noDefault (i : Nat) (param : ParameterNode) (st : LowerState)
    (ty : LLVMType)
    (hty : wave_type_to_llvm_type param.param_type = .ok ty)
    (hv : param.initial_value = none) :
    lowerParam i param st = .ok ⟨st.instrs ++ [.alloca st.nextSlot ty param.name,
        .store st.nextSlot (.funcArg i)],
      st.globals, insertOverwrite st.vars param.name ⟨st.nextSlot, .Let⟩,
      st.nextSlot + 1⟩ := by
  simp [lowerParam, hty, hv, exceptOkBind, pure, Except.pure]

theorem lowerParam_intDefault (i : Nat) (param : ParameterNode) (st : LowerState)
    (w : Nat) (v : Int)
    (hty : wave_type_to_llvm_type param.param_type = .ok (.int w))
    (hv : param.initial_value = some (.Int v)) :
    lowerParam i param st = .ok ⟨st.instrs ++ [.alloca st.nextSlot (.int w) param.name,
        .store st.nextSlot (.constInt w (intAsU64 v))],
      st.globals, insertOverwrite st.vars param.name ⟨st.nextSlot, .Let⟩,
      st.nextSlot + 1⟩ := by
  simp [lowerParam, hty, hv, exceptOkBind, pure, Except.pure]

theorem lowerParam_floatDefault (i : Nat) (param : ParameterNode) (st : LowerState)
    (w : Nat) (f : Nat)
    (hty : wave_type_to_llvm_type param.param_type = .ok (.float w))
    (hv : param.initial_value = some (.Float f)) :
    lowerParam i param st = .ok ⟨st.instrs ++ [.alloca st.nextSlot (.float w) param.name,
        .store st.nextSlot (.constFloat w f)],
      st.globals, insertOverwrite st.vars param.name ⟨st.nextSlot, .Let⟩,
      st.nextSlot + 1⟩ := by
  simp [lowerParam, hty, hv, exceptOkBind, pure, Except.pure]

theorem lowerParam_textDefault (i : Nat) (param : ParameterNode) (st : LowerState)
    (t : LLVMType) (s : String)
    (hty : wave_type_to_llvm_type param.param_type = .ok (.pointer t))
    (hv : param.initial_value = some (.Text s)) :
    lowerParam i param st = .ok ⟨
      st.instrs ++ [.alloca st.nextSlot (.pointer t) param.name,
        .store st.nextSlot (.globalElemAddr ("param_str_" ++ param.name))],
      st.globals ++ [⟨"param_str_" ++ param.name, (strBytes s ++ [0]).length,
        strBytes s ++ [0], true⟩],
      insertOverwrite st.vars param.name ⟨st.nextSlot, .Let⟩,
      st.nextSlot + 1⟩ := by
  simp [lowerParam, hty, hv, exceptOkBind, pure, Except.pure]

theorem lowerParam_mismatch (i : Nat) (param : ParameterNode) (st : LowerState)
    (ty : LLVMType) (v : Value)
    (hty : wave_type_to_llvm_type param.param_type = .ok ty)
    (hv : param.initial_value = some v)
    (hmis : literalCompatible v ty = false) :
    lowerParam i param st = .ok ⟨st.instrs ++ [.alloca st.nextSlot ty param.name],
      st.globals, insertOverwrite st.vars param.name ⟨st.nextSlot, .Let⟩,
      st.nextSlot + 1⟩ := by
  cases v <;> cases ty <;>
    simp_all [lowerParam, literalCompatible, exceptOkBind, pure, Except.pure]

/-- C6: the type mapper is pure and deterministic (it is a function) and maps
integers and unsigned integers to an IR integer of identical width, boolean
to a 1-bit integer, byte and character to an 8-bit integer, string to
pointer-to-i8, pointers and arrays recursively, float widths 32 and 64 to
the corresponding IR float, and any other float width to the
`UnsupportedWidth` fault (panic "Unsupported float bit width"). -/
theorem C6_type_mapper_characterization :
    (∀ b, b ≠ 32 → b ≠ 64 →
      wave_type_to_llvm_type (.float b) = .error (.unsupportedFloatWidth b))
  ∧ wave_type_to_llvm_type (.float 32) = .ok (.float 32)
  ∧ wave_type_to_llvm_type (.float 64) = .ok (.float 64)
  ∧ (∀ b, wave_type_to_llvm_type (.int b) = .ok (.int b))
  ∧ (∀ b, wave_type_to_llvm_type (.uint b) = .ok (.int b))
  ∧ wave_type_to_llvm_type .bool = .ok (.int 1)
  ∧ wave_type_to_llvm_type .byte = .ok (.int 8)
  ∧ wave_type_to_llvm_type .char = .ok (.int 8)
  ∧ wave_type_to_llvm_type .string = .ok (.pointer (.int 8))
  ∧ (∀ t, wave_type_to_llvm_type (.pointer t) =
      (wave_type_to_llvm_type t).map LLVMType.pointer)
  ∧ (∀ t n, wave_type_to_llvm_type (.array t n) =
      (wave_type_to_llvm_type t).map (fun u => LLVMType.array u n)) := by
  refine ⟨?_, rfl, rfl, fun b => rfl, fun b => rfl, rfl, rfl, rfl, rfl, ?_, ?_⟩
  · intro b h32 h64
    unfold wave_type_to_llvm_type
    split <;> simp_all
  · intro t
    cases h : wave_type_to_llvm_type t <;>
      simp [wave_type_to_llvm_type, h, Except.map, exceptOkBind, exceptErrorBind,
        pure, Except.pure]
  · intro t n
    cases h : wave_type_to_llvm_type t <;>
      simp [wave_type_to_llvm_type, h, Except.map, exceptOkBind, exceptErrorBind,
        pure, Except.pure]

/-- Witness for C6: float width 16 faults. -/
theorem C6_witness :
    wave_type_to_llvm_type (.float 16) = .error (.unsupportedFloatWidth 16) :=
  C6_type_mapper_characterization.1 16 (by decide) (by decide)

/-- C4: for a function with no declared return type, the driver appends the
implicit void return after dispatching the body statements, unconditionally
in the body: `did_return` is the constant `false`, so the `ret void` is
appended for every void function regardless of what the body contained. -/
theorem C4_unconditional_void_return (parameters : List ParameterNode)
    (body : List ASTNode) (globals0 : List GlobalConst) (st1 st2 : LowerState)
    (h1 : lowerParams 0 parameters ⟨[], globals0, [], 0⟩ = .ok st1)
    (h2 : lowerBody body st1 = .ok st2) :
    lowerFunction parameters none body globals0
      = .ok (st2.instrs ++ [.retVoid], st2.vars, st2.globals) := by
  simp [lowerFunction, h1, h2, exceptOkBind, pure, Except.pure, Option.isNone]

/-- Witness for C4. -/
theorem C4_witness :
    lowerFunction [⟨"x", .int 32, none⟩] none [.Statement 7] []
      = .ok ([.alloca 0 (.int 32) "x", .store 0 (.funcArg 0),
              .emitStmt (.Statement 7), .retVoid],
             [("x", ⟨0, .Let⟩)], []) :=
  C4_unconditional_void_return [⟨"x", .int 32, none⟩] [.Statement 7] []
    ⟨[.alloca 0 (.int 32) "x", .store 0 (.funcArg 0)], [], [("x", ⟨0, .Let⟩)], 1⟩
    ⟨[.alloca 0 (.int 32) "x", .store 0 (.funcArg 0), .emitStmt (.Statement 7)],
      [], [("x", ⟨0, .Let⟩)], 1⟩
    rfl rfl

/-- C2 counterexample: two declarations named "f"; `generate_ir` does not
fault (no `DuplicateFunction` fault exists in the code) and the signature
table silently keeps the second declaration's signature, which is then used
for both lowered functions. -/
theorem C2_counterexample :
    generate_ir [.Function "f" [] (some (.int 32)) [],
                 .Function "f" [] (some (.int 64)) []]
      = .ok ([("f", ⟨[], some (.int 32)⟩), ("f", ⟨[], some (.int 64)⟩)],
             [⟨"f", ⟨[], some (.int 64)⟩, []⟩, ⟨"f", ⟨[], some (.int 64)⟩, []⟩],
             []) := rfl

/-- C2 amended: a declaration whose name is already present in the
signature table is processed without any fault; its `add_function` entry is
appended and the table entry for the name is overwritten with the new
signature (last declaration wins). -/
theorem C2_amended_duplicate_overwrites
    (name : String) (parameters : List ParameterNode) (return_type : Option WaveType)
    (body rest : List ASTNode) (moduleFns functions : List (String × FnType))
    (ft ftOld : FnType)
    (_hdup : lookupEnv functions name = some ftOld)
    (hft : fnTypeOfDecl parameters return_type = .ok ft) :
    signaturePassAux (.Function name parameters return_type body :: rest) moduleFns functions
      = signaturePassAux rest (moduleFns ++ [(name, ft)]) (insertOverwrite functions name ft)
  ∧ lookupEnv (insertOverwrite functions name ft) name = some ft := by
  constructor
  · simp [signaturePassAux, hft, exceptOkBind]
  · exact lookupEnv_insertOverwrite functions name ft

/-- Witness for C2 amended. -/
theorem C2_witness :
    signaturePassAux [ASTNode.Function "f" [] (some (.int 64)) []]
        [("f", ⟨[], some (.int 32)⟩)] [("f", ⟨[], some (.int 32)⟩)]
      = signaturePassAux []
          ([("f", (⟨[], some (.int 32)⟩ : FnType))] ++ [("f", ⟨[], some (.int 64)⟩)])
          (insertOverwrite [("f", ⟨[], some (.int 32)⟩)] "f" ⟨[], some (.int 64)⟩)
  ∧ lookupEnv (insertOverwrite [("f", (⟨[], some (.int 32)⟩ : FnType))] "f"
        ⟨[], some (.int 64)⟩) "f" = some ⟨[], some (.int 64)⟩ :=
  C2_amended_duplicate_overwrites "f" [] (some (.int 64)) [] []
    [("f", ⟨[], some (.int 32)⟩)] [("f", ⟨[], some (.int 32)⟩)]
    ⟨[], some (.int 64)⟩ ⟨[], some (.int 32)⟩ rfl rfl

/-- C1 counterexample: a parameter typed 32-bit integer with a text default
literal; `generate_ir` completes without any fault (there is no
`DefaultValueTypeMismatch` fault in the code) — the slot gets no store. -/
theorem C1_counterexample :
    generate_ir [.Function "g" [⟨"x", .int 32, some (.Text "hi")⟩] none []]
      = .ok ([("g", ⟨[.int 32], none⟩)],
             [⟨"g", ⟨[.int 32], none⟩, [.alloca 0 (.int 32) "x", .retVoid]⟩],
             []) := rfl

/-- C1 amended: when a parameter's default literal kind is incompatible with
its mapped IR type, lowering the parameter does not fault: the slot is
allocated, no store is emitted for it, and the name is still bound with
mutability `Let`. -/
theorem C1_amended_mismatch_no_fault (i : Nat) (param : ParameterNode)
    (st : LowerState) (ty : LLVMType) (v : Value)
    (hty : wave_type_to_llvm_type param.param_type = .ok ty)
    (hv : param.initial_value = some v)
    (hmis : literalCompatible v ty = false) :
    lowerParam i param st = .ok ⟨st.instrs ++ [.alloca st.nextSlot ty param.name],
      st.globals, insertOverwrite st.vars param.name ⟨st.nextSlot, .Let⟩,
      st.nextSlot + 1⟩ :=
  lowerParam_mismatch i param st ty v hty hv hmis

/-- Witness for C1 amended. -/
theorem C1_witness :
    lowerParam 0 ⟨"x", .int 32, some (.Text "hi")⟩ ⟨[], [], [], 0⟩
      = .ok ⟨[.alloca 0 (.int 32) "x"], [], [("x", ⟨0, .Let⟩)], 1⟩ :=
  C1_amended_mismatch_no_fault 0 ⟨"x", .int 32, some (.Text "hi")⟩ ⟨[], [], [], 0⟩
    (.int 32) (.Text "hi") rfl rfl rfl

/-- C10: a parameter whose default literal kind mismatches its mapped IR
type produces no fault at all: no store is emitted to the freshly allocated
slot, the name is still bound with mutability `Let`, and the parameter loop
continues with the rest of the parameters normally. -/
theorem C10_mismatch_continues (i : Nat) (param : ParameterNode)
    (rest : List ParameterNode) (st : LowerState) (ty : LLVMType) (v : Value)
    (hty : wave_type_to_llvm_type param.param_type = .ok ty)
    (hv : param.initial_value = some v)
    (hmis : literalCompatible v ty = false) :
    lowerParams i (param :: rest) st
      = lowerParams (i + 1) rest ⟨st.instrs ++ [.alloca st.nextSlot ty param.name],
          st.globals, insertOverwrite st.vars param.name ⟨st.nextSlot, .Let⟩,
          st.nextSlot + 1⟩ := by
  simp [lowerParams, lowerParam_mismatch i param st ty v hty hv hmis, exceptOkBind]

/-- Witness for C10. -/
theorem C10_witness :
    lowerParams 0 [⟨"x", .int 32, some (.Text "hi")⟩, ⟨"y", .bool, none⟩] ⟨[], [], [], 0⟩
      = lowerParams 1 [⟨"y", .bool, none⟩]
          ⟨[.alloca 0 (.int 32) "x"], [], [("x", ⟨0, .Let⟩)], 1⟩ :=
  C10_mismatch_continues 0 ⟨"x", .int 32, some (.Text "hi")⟩ [⟨"y", .bool, none⟩]
    ⟨[], [], [], 0⟩ (.int 32) (.Text "hi") rfl rfl rfl

/-- C5 counterexample: a parameter declaring an (incompatible) text default
on a 32-bit-integer slot, with a caller argument available at index 0; the
slot is not initialized from the caller's positional argument (no store at
all is emitted), refuting the claim's "otherwise" clause. -/
theorem C5_counterexample :
    lowerParam 0 ⟨"p", .int 32, some (.Text "hello")⟩ ⟨[], [], [], 0⟩
      = .ok ⟨[.alloca 0 (.int 32) "p"], [], [("p", ⟨0, .Let⟩)], 1⟩
  ∧ Instr.store 0 (.funcArg 0) ∉ ([.alloca 0 (.int 32) "p"] : List Instr) :=
  ⟨rfl, by simp⟩

/-- C5 amended: per parameter, exactly one slot is allocated and the initial
value follows this precedence — a compatible default literal is stored as a
typed constant (an integer literal as `const_int` of the slot width with the
value reinterpreted as u64, a float literal as `const_float`, a text literal
as the address of a freshly emitted null-terminated constant global); with
no default, the caller's positional argument at the same index is stored;
with a default whose kind is incompatible with the slot type, no store is
emitted at all (the caller's argument is not used either).  In every case
the parameter name is then bound with mutability `Let`. -/
theorem C5_amended_param_init_precedence (i : Nat) (param : ParameterNode)
    (st : LowerState) (ty : LLVMType)
    (hty : wave_type_to_llvm_type param.param_type = .ok ty) :
    (∀ v w, param.initial_value = some (.Int v) → ty = .int w →
      lowerParam i param st = .ok ⟨st.instrs ++ [.alloca st.nextSlot ty param.name,
        .store st.nextSlot (.constInt w (intAsU64 v))], st.globals,
        insertOverwrite st.vars param.name ⟨st.nextSlot, .Let⟩, st.nextSlot + 1⟩)
  ∧ (∀ f w, param.initial_value = some (.Float f) → ty = .float w →
      lowerParam i param st = .ok ⟨st.instrs ++ [.alloca st.nextSlot ty param.name,
        .store st.nextSlot (.constFloat w f)], st.globals,
        insertOverwrite st.vars param.name ⟨st.nextSlot, .Let⟩, st.nextSlot + 1⟩)
  ∧ (∀ s t, param.initial_value = some (.Text s) → ty = .pointer t →
      lowerParam i param st = .ok ⟨st.instrs ++ [.alloca st.nextSlot ty param.name,
        .store st.nextSlot (.globalElemAddr ("param_str_" ++ param.name))],
        st.globals ++ [⟨"param_str_" ++ param.name, (strBytes s ++ [0]).length,
          strBytes s ++ [0], true⟩],
        insertOverwrite st.vars param.name ⟨st.nextSlot, .Let⟩, st.nextSlot + 1⟩)
  ∧ (param.initial_value = none →
      lowerParam i param st = .ok ⟨st.instrs ++ [.alloca st.nextSlot ty param.name,
        .store st.nextSlot (.funcArg i)], st.globals,
        insertOverwrite st.vars param.name ⟨st.nextSlot, .Let⟩, st.nextSlot + 1⟩)
  ∧ (∀ v, param.initial_value = some v → literalCompatible v ty = false →
      lowerParam i param st = .ok ⟨st.instrs ++ [.alloca st.nextSlot ty param.name],
        st.globals, insertOverwrite st.vars param.name ⟨st.nextSlot, .Let⟩,
        st.nextSlot + 1⟩) := by
  refine ⟨?_, ?_, ?_, ?_, ?_⟩
  · intro v w hv hw
    subst hw
    exact lowerParam_intDefault i param st w v hty hv
  · intro f w hv hw
    subst hw
    exact lowerParam_floatDefault i param st w f hty hv
  · intro s t hv hw
    subst hw
    exact lowerParam_textDefault i param st t s hty hv
  · intro hv
    exact lowerParam_noDefault i param st ty hty hv
  · intro v hv hmis
    exact lowerParam_mismatch i param st ty v hty hv hmis

/-- Witness for C5 amended: the spec's own example — a 32-bit integer
parameter with default literal 5 is initialized to the constant 5. -/
theorem C5_witness :
    lowerParam 0 ⟨"x", .int 32, some (.Int 5)⟩ ⟨[], [], [], 0⟩
      = .ok ⟨[.alloca 0 (.int 32) "x", .store 0 (.constInt 32 5)], [],
             [("x", ⟨0, .Let⟩)], 1⟩ :=
  (C5_amended_param_init_precedence 0 ⟨"x", .int 32, some (.Int 5)⟩ ⟨[], [], [], 0⟩
    (.int 32) rfl).1 5 32 rfl rfl

/-- C9: a parameter with a text default literal and a pointer-typed slot
emits a read-only constant global named `param_str_{name}` (keyed by the
parameter name) holding the literal's bytes plus a trailing null terminator,
and stores the address of the global's first element into the slot; two
parameters with distinct names and identical text defaults produce two
distinct globals. -/
theorem C9_text_default_globals (i : Nat) (param : ParameterNode) (st : LowerState)
    (s : String) (t : LLVMType)
    (hv : param.initial_value = some (.Text s))
    (hty : wave_type_to_llvm_type param.param_type = .ok (.pointer t)) :
    (lowerParam i param st = .ok ⟨
        st.instrs ++ [.alloca st.nextSlot (.pointer t) param.name,
          .store st.nextSlot (.globalElemAddr ("param_str_" ++ param.name))],
        st.globals ++ [⟨"param_str_" ++ param.name, (strBytes s ++ [0]).length,
          strBytes s ++ [0], true⟩],
        insertOverwrite st.vars param.name ⟨st.nextSlot, .Let⟩,
        st.nextSlot + 1⟩)
  ∧ (∀ (p1 p2 : ParameterNode) (s2 : String) (t1 t2 : LLVMType) (st0 : LowerState),
      p1.initial_value = some (.Text s2) → p2.initial_value = some (.Text s2) →
      wave_type_to_llvm_type p1.param_type = .ok (.pointer t1) →
      wave_type_to_llvm_type p2.param_type = .ok (.pointer t2) →
      p1.name ≠ p2.name →
      (lowerParams 0 [p1, p2] st0).map LowerState.globals
        = .ok (st0.globals ++
            [⟨"param_str_" ++ p1.name, (strBytes s2 ++ [0]).length, strBytes s2 ++ [0], true⟩,
             ⟨"param_str_" ++ p2.name, (strBytes s2 ++ [0]).length, strBytes s2 ++ [0], true⟩])
      ∧ "param_str_" ++ p1.name ≠ "param_str_" ++ p2.name) := by
  constructor
  · exact lowerParam_textDefault i param st t s hty hv
  · intro p1 p2 s2 t1 t2 st0 h1 h2 ht1 ht2 hne
    constructor
    · simp only [lowerParams]
      rw [lowerParam_textDefault 0 p1 st0 t1 s2 ht1 h1, exceptOkBind]
      rw [lowerParam_textDefault 1 p2 _ t2 s2 ht2 h2, exceptOkBind]
      simp [lowerParams, Except.map]
    · intro heq
      exact hne (string_append_right_inj "param_str_" heq)

/-- Witness for C9. -/
theorem C9_witness :
    lowerParam 0 ⟨"a", .string, some (.Text "hi")⟩ ⟨[], [], [], 0⟩
      = .ok ⟨[.alloca 0 (.pointer (.int 8)) "a", .store 0 (.globalElemAddr "param_str_a")],
             [⟨"param_str_a", 3, [104, 105, 0], true⟩], [("a", ⟨0, .Let⟩)], 1⟩ :=
  (C9_text_default_globals 0 ⟨"a", .string, some (.Text "hi")⟩ ⟨[], [], [], 0⟩
    "hi" (.int 8) rfl rfl).1

/-- C7 counterexample: dereferencing a non-variable, non-dereference
expression (a literal) faults with the "Nested deref not supported" panic
(`UnsupportedNestedDeref`), not with "Cannot take address of this
expression" (`NotAnAddressableExpression`) as the claim's catch-all clause
requires. -/
theorem C7_counterexample :
    generate_address_ir (.Deref (.Literal (.Int 0))) [] = .error .nestedDerefNotSupported
  ∧ generate_address_ir (.Deref (.Literal (.Int 0))) [] ≠ .error .cannotTakeAddress := by
  constructor <;> decide

/-- C7 amended: a bare bound variable resolves to its slot address; a
dereference of a bound variable resolves to the pointer value loaded from
its slot; an unbound variable, bare or under a dereference, faults with
`UndefinedVariable`; a dereference of ANY non-variable inner expression
(dereference-of-dereference included) faults with `UnsupportedNestedDeref`;
and every non-variable, non-dereference expression shape faults with
`NotAnAddressableExpression`. -/
theorem C7_amended_address_resolution (env : List (String × VariableInfo)) :
    (∀ name vi, lookupEnv env name = some vi →
      generate_address_ir (.Variable name) env = .ok (.slotAddr vi.ptr))
  ∧ (∀ name, lookupEnv env name = none →
      generate_address_ir (.Variable name) env = .error (.variableNotFound name))
  ∧ (∀ name vi, lookupEnv env name = some vi →
      generate_address_ir (.Deref (.Variable name)) env = .ok (.loadedFrom vi.ptr))
  ∧ (∀ name, lookupEnv env name = none →
      generate_address_ir (.Deref (.Variable name)) env = .error (.variableNotFound name))
  ∧ (∀ inner, (∀ n, inner ≠ .Variable n) →
      generate_address_ir (.Deref inner) env = .error .nestedDerefNotSupported)
  ∧ (∀ v, generate_address_ir (.Literal v) env = .error .cannotTakeAddress)
  ∧ (∀ l r, generate_address_ir (.BinaryOp l r) env = .error .cannotTakeAddress) := by
  refine ⟨?_, ?_, ?_, ?_, ?_, fun v => rfl, fun l r => rfl⟩
  · intro name vi h
    simp [generate_address_ir, h]
  · intro name h
    simp [generate_address_ir, h]
  · intro name vi h
    simp [generate_address_ir, h]
  · intro name h
    simp [generate_address_ir, h]
  · intro inner hni
    cases inner with
    | Variable n => exact absurd rfl (hni n)
    | Deref e => rfl
    | Literal v => rfl
    | BinaryOp l r => rfl

/-- Witness for C7 amended: a double dereference faults with
`UnsupportedNestedDeref`. -/
theorem C7_witness :
    generate_address_ir (.Deref (.Deref (.Variable "p"))) [] = .error .nestedDerefNotSupported :=
  (C7_amended_address_resolution []).2.2.2.2.1 (.Deref (.Variable "p")) (fun n => by simp)

/-- C3 counterexample: with no argument types, the placeholder in "a{}b" is
not left as the literal two-character text "{}" — the output is "a{b": the
closing brace is consumed and dropped. -/
theorem C3_counterexample :
    wave_format_to_c "a{}b" [] = "a\x7bb" ∧ wave_format_to_c "a{}b" [] ≠ "a{}b" := by
  constructor <;> decide

/-- C3 amended: once the placeholder index has reached or passed the number
of supplied argument types, every remaining `{}` placeholder is emitted as
the single character `{` — its `}` is consumed and dropped — and every other
remaining character is copied through unchanged. -/
theorem C3_amended_excess_placeholder (cs : List Char) (ts : List LLVMType)
    (i : Nat) (acc : List Char) (h : ts.length ≤ i) :
    waveFormatToCLoop cs ts i acc = acc ++ droppedBraceRender cs := by
  rw [waveFormatToCLoop_translate cs.length cs le_rfl ts i acc,
    List.drop_eq_nil_of_le h, translateSpecChars_nil cs.length cs le_rfl]

/-- Witness for C3 amended. -/
theorem C3_witness :
    waveFormatToCLoop ['x', '{', '}', 'y'] [] 0 []
      = [] ++ droppedBraceRender ['x', '{', '}', 'y'] :=
  C3_amended_excess_placeholder ['x', '{', '}', 'y'] [] 0 [] (by decide)

/-- C8 counterexample: "{}" with no argument types translates to "{", not
"{}" — the closing brace of an excess placeholder is not copied through
unchanged. -/
theorem C8_counterexample :
    wave_format_to_c "{}" [] = "\x7b" ∧ wave_format_to_c "{}" [] ≠ "{}" := by
  constructor <;> decide

/-- C8 amended: the translator never faults and equals the reference
translation: scanning left to right, each `{}` placeholder with an argument
type remaining is replaced by that type's specifier ("%f" float, "%d"
integer, "%s" pointer-to-i8, "%ld" other pointer, "%d" fallback), consuming
the type; a `{}` placeholder with the argument types exhausted is emitted as
`{` alone (its `}` dropped); every other character — including a lone `{`
not followed by `}` — is copied through unchanged. -/
theorem C8_amended_format_translation (format : String) (arg_types : List LLVMType) :
    wave_format_to_c format arg_types
      = String.mk (translateSpecChars format.data arg_types) := by
  unfold wave_format_to_c
  rw [waveFormatToCLoop_translate format.data.length format.data le_rfl arg_types 0 []]
  simp
